import Mathlib

/-
  Verification of the AGOL survey ETL pipeline (agol_survey_etl.py).

  The pipeline has three stages: fetch (query_agol_data), transform
  (transform_agol_data / build_schema) and load (get_pg_connection,
  check_table_exists, load_data_into_pg_warehouse, build_load_query).
  Python dictionaries are modelled as association lists, psycopg2 SQL
  composition as an explicit tree of parts, and the effectful
  stages (HTTP fetch, logging, file writes, database writes, raised
  exceptions) as pure functions from the external outcomes to an
  explicit result record.
-/

set_option autoImplicit false

set_option maxRecDepth 8000

namespace AgolEtl

/-- Concrete polars scalar types used by the schema builder. -/
inductive PolarsType where
  | string
  | int64
  | float64
  deriving DecidableEq, Repr

/-- A value stored in the `json_schema` dictionary of a survey: initially a type
tag (a plain string from the YAML file), replaced by a concrete polars type
when `build_schema` runs. -/
inductive SchemaVal where
  | tag : String → SchemaVal
  | ptype : PolarsType → SchemaVal
  deriving DecidableEq, Repr

/-- A scalar cell value, covering the JSON attribute values and the values a
polars column can hold after casting.  Floats are carried as their rendered
text and dates as days since the Unix epoch. -/
inductive Cell where
  | null
  | str : String → Cell
  | int : Int → Cell
  | float : String → Cell
  | datetime : Int → Cell
  | date : Int → Cell
  deriving DecidableEq, Repr

/-- Per-survey configuration from `etl_variables.yaml`. -/
structure SurveyParams where
  name : String
  url : String
  json_schema : List (String × SchemaVal)
  db_schema : List (String × SchemaVal)
  table_name : String
  prim_key : String
  update_col : String
  deriving DecidableEq, Repr

/-- Run-wide configuration from `etl_variables.yaml`. -/
structure EtlYaml where
  db_name : String
  schema_name : String
  token : String
  deriving DecidableEq, Repr

/-- Lookup in an association list (Python `d[k]` / `d.get(k)`). -/
def assocLookup {α : Type} (k : String) : List (String × α) → Option α
  | [] => none
  | (k', v) :: rest => if k' = k then some v else assocLookup k rest

/-- Assignment `d[k] = v` to an existing key of a Python dict: the entry for
`k` is replaced in place, order preserved. -/
def assocSet {α : Type} (k : String) (v : α) (d : List (String × α)) :
    List (String × α) :=
  d.map fun kv => if kv.1 = k then (k, v) else kv

/-- The if/elif chain of `build_schema`: maps the tag "string" to
`polars.String`, "int64" to `polars.Int64`, "float64" to `polars.Float64`,
anything else to `polars.String`. -/
def coerceSchemaVal (v : SchemaVal) : SchemaVal :=
  if v = .tag "string" then .ptype .string
  else if v = .tag "int64" then .ptype .int64
  else if v = .tag "float64" then .ptype .float64
  else .ptype .string

/-- The loop `for key, value in schema.items(): schema[key] = …` of
`build_schema`, iterating over the items while assigning back into the same
dictionary. -/
def build_schema_loop (items : List (String × SchemaVal))
    (schema : List (String × SchemaVal)) : List (String × SchemaVal) :=
  match items with
  | [] => schema
  | (k, v) :: rest => build_schema_loop rest (assocSet k (coerceSchemaVal v) schema)

/-- `build_schema` (agol_survey_etl.py lines 95–113).  In the source,
`schema` is bound to the very dictionary `survey_params["json_schema"]` and
updated in place, so the function both returns the coerced schema and leaves
`survey_params` holding it; the mutation is modelled by returning the
post-call `survey_params` alongside the result. -/
def build_schema (survey_params : SurveyParams) :
    List (String × SchemaVal) × SurveyParams :=
  let schema := build_schema_loop survey_params.json_schema survey_params.json_schema
  (schema, { survey_params with json_schema := schema })

/-- One component of a psycopg2 `sql.Composed`: a raw `sql.SQL` chunk, a
quoted `sql.Identifier`, or a `sql.Literal` value. -/
inductive Part where
  | raw : String → Part
  | ident : String → Part
  | lit : Cell → Part
  deriving DecidableEq, Repr

/-- `sql.SQL(sep).join(items)`: the items interleaved with the separator. -/
def sqlJoin (sep : Part) : List Part → List Part
  | [] => []
  | [p] => [p]
  | p :: q :: rest => p :: sep :: sqlJoin sep (q :: rest)

/-- The raw chunks of the upsert template of `build_load_query`, split at the
`format` placeholders (the template is a triple-quoted string, hence the
leading newline and indentation). -/
def insertIntoChunk : String := "\n        INSERT INTO "

def valuesChunk : String := ") VALUES ("

def onConflictChunk : String := ")\n        ON CONFLICT ("

def doUpdateSetChunk : String := ") DO UPDATE SET "

def excludedChunk : String := " = Excluded."

/-- `build_load_query` (agol_survey_etl.py lines 201–231): the column list is
the keys of `db_schema` as identifiers, the value list is the entries of the row
as literals, the conflict target is `prim_key` wrapped in `sql.SQL` (raw),
and the update column is an identifier used twice. -/
def build_load_query (data : List Cell) (etl_yaml : EtlYaml)
    (survey_params : SurveyParams) : List Part :=
  let col_names := sqlJoin (.raw ", ")
    (survey_params.db_schema.map fun col => .ident col.1)
  let values := sqlJoin (.raw " , ") (data.map fun val => .lit val)
  [Part.raw insertIntoChunk, .ident etl_yaml.schema_name, .raw ".",
    .ident survey_params.table_name, .raw " ("]
  ++ col_names
  ++ [Part.raw valuesChunk]
  ++ values
  ++ [Part.raw onConflictChunk, .raw survey_params.prim_key,
    .raw doUpdateSetChunk, .ident survey_params.update_col,
    .raw excludedChunk, .ident survey_params.update_col, .raw "\n        "]

/-- The identifiers of a composed query, in order. -/
def queryIdents (q : List Part) : List String :=
  q.filterMap fun p => match p with | .ident s => some s | _ => none

/-- The literal values of a composed query, in order. -/
def queryLits (q : List Part) : List Cell :=
  q.filterMap fun p => match p with | .lit c => some c | _ => none

/-- The part immediately following the `ON CONFLICT (` chunk: the conflict
target of the statement. -/
def afterConflictMarker : List Part → Option Part
  | [] => none
  | p :: rest =>
    if p = Part.raw onConflictChunk then rest.head? else afterConflictMarker rest

/-- The parts following the first occurrence of a marker part. -/
def partsAfter (marker : Part) : List Part → List Part
  | [] => []
  | p :: rest => if p = marker then rest else partsAfter marker rest

/-- Quoting of a psycopg2 `sql.Identifier`: the name in double quotes, inner
double quotes doubled. -/
def quoteIdent (s : String) : String :=
  "\"" ++ String.join (s.data.map fun c =>
    if c = '"' then "\"\"" else String.singleton c) ++ "\""

/-- Conversion of one civil-date component triple from a day count since
1970-01-01 (Gregorian calendar, the standard era-based algorithm). -/
def civilFromDays (z0 : Int) : Int × Int × Int :=
  let z := z0 + 719468
  let era := Int.fdiv z 146097
  let doe := z - era * 146097
  let yoe := Int.fdiv (doe - Int.fdiv doe 1460 + Int.fdiv doe 36524
    - Int.fdiv doe 146096) 365
  let y := yoe + era * 400
  let doy := doe - (365 * yoe + Int.fdiv yoe 4 - Int.fdiv yoe 100)
  let mp := Int.fdiv (5 * doy + 2) 153
  let d := doy - Int.fdiv (153 * mp + 2) 5 + 1
  let m := mp + (if mp < 10 then 3 else -9)
  (if m ≤ 2 then y + 1 else y, m, d)

/-- Zero-padded two-digit rendering of a month or day component. -/
def pad2 (n : Int) : String :=
  if n < 10 then "0" ++ toString n else toString n

/-- ISO rendering of a day count since the epoch. -/
def isoOfDays (d : Int) : String :=
  let c := civilFromDays d
  toString c.1 ++ "-" ++ pad2 c.2.1 ++ "-" ++ pad2 c.2.2

/-- Rendering of a `sql.Literal`, as the psycopg2 adapters produce it (string
quoting uses the single-quote character \x27). -/
def renderLit : Cell → String
  | .null => "NULL"
  | .str s => "\x27" ++ s ++ "\x27"
  | .int n => toString n
  | .float r => r
  | .datetime ms => toString ms
  | .date d => "\x27" ++ isoOfDays d ++ "\x27::date"

/-- Rendering of one part into SQL text: raw chunks verbatim, identifiers
quoted, literals through the adapter. -/
def renderPart : Part → String
  | .raw s => s
  | .ident s => quoteIdent s
  | .lit c => renderLit c

/-- `as_string` of a composed query: concatenation of the rendered parts. -/
def renderQuery : List Part → String
  | [] => ""
  | p :: rest => renderPart p ++ renderQuery rest

/-- Number of positions of `s` at which `pat` occurs as a substring. -/
def countOccur (pat : List Char) : List Char → Nat
  | [] => 0
  | c :: rest =>
    (if pat.isPrefixOf (c :: rest) then 1 else 0) + countOccur pat rest

/-- Substring-occurrence count on strings. -/
def countOccurS (pat s : String) : Nat := countOccur pat.data s.data

/-- `Option`-valued map over a list, failing if any element fails (the
behavior of a library call that raises on the first bad element). -/
def mapOpt {α β : Type} (f : α → Option β) : List α → Option (List β)
  | [] => some []
  | a :: rest =>
    match f a, mapOpt f rest with
    | some b, some bs => some (b :: bs)
    | _, _ => none

/-- Strict conversion of one JSON attribute value into one schema column of
`polars.from_dicts`: matching scalars pass through, integers widen into a
float column, nulls pass, anything else raises. -/
def castSchemaVal : SchemaVal → Cell → Option Cell
  | .ptype .string, .str s => some (.str s)
  | .ptype .string, .null => some .null
  | .ptype .int64, .int n => some (.int n)
  | .ptype .int64, .null => some .null
  | .ptype .float64, .float r => some (.float r)
  | .ptype .float64, .int n => some (.float (toString n ++ ".0"))
  | .ptype .float64, .null => some .null
  | _, _ => none

/-- One row of `polars.from_dicts`: for each declared column (in schema
order), the attribute value of the feature, missing keys becoming null. -/
def buildRow (schema : List (String × SchemaVal))
    (attrs : List (String × Cell)) : Option (List Cell) :=
  mapOpt (fun kv => castSchemaVal kv.2 ((assocLookup kv.1 attrs).getD .null)) schema

/-- `polars.from_epoch(col, time_unit="ms")` on one cell: an integer becomes
a millisecond datetime, null stays, anything else raises. -/
def fromEpochCell : Cell → Option Cell
  | .int n => some (.datetime n)
  | .null => some .null
  | _ => none

/-- `.cast({col: polars.Date})` on one millisecond-datetime cell: the
timestamp floored to its UTC day boundary, counted in days since the
epoch. -/
def castDateCell : Cell → Option Cell
  | .datetime ms => some (.date (Int.fdiv ms 86400000))
  | .null => some .null
  | _ => none

/-- Apply a fallible cell transformation at one column index of a row. -/
def mapCellAt (f : Cell → Option Cell) : Nat → List Cell → Option (List Cell)
  | _, [] => some []
  | 0, c :: rest => (f c).map (· :: rest)
  | n + 1, c :: rest => (mapCellAt f n rest).map (c :: ·)

/-- A polars dataframe: named columns and rows of cells. -/
structure DataFrame where
  cols : List String
  rows : List (List Cell)
  deriving DecidableEq, Repr

/-- `transform_agol_data` (agol_survey_etl.py lines 65–92), with the parsed
content of the raw JSON file passed in as the list of `attributes` objects of
its `features` entries.  Builds the schema, constructs one row per feature,
converts the `date_collected` column from epoch milliseconds to a calendar
date, and returns the dataframe; `none` models the run aborting with an
uncaught exception. -/
def transform_agol_data (survey_params : SurveyParams)
    (features : List (List (String × Cell))) : Option DataFrame :=
  let schema := (build_schema survey_params).1
  match mapOpt (buildRow schema) features with
  | none => none
  | some rows =>
    match (schema.map Prod.fst).findIdx? (· = "date_collected") with
    | none => none
    | some i =>
      match mapOpt (mapCellAt fromEpochCell i) rows with
      | none => none
      | some rows2 =>
        match mapOpt (mapCellAt castDateCell i) rows2 with
        | none => none
        | some rows3 => some ⟨schema.map Prod.fst, rows3⟩

/-- Exceptions the pipeline can raise, named after their Python classes. -/
inductive PyError where
  | unboundLocalError : String → PyError
  | jsonDecodeError
  | attributeErrorNoneCursor
  deriving DecidableEq, Repr

/-- Outcome of the HTTP GET as seen by `query_agol_data`: the status code and
the body (already parsed when it is valid JSON, `none` when `.json()` would
raise). -/
structure Response where
  status_code : Nat
  jsonBody : Option String
  deriving DecidableEq, Repr

/-- Observable result of the fetch stage: log lines, the raw-output file
written (if any), and the exception escaping the function (if any). -/
structure FetchResult where
  logs : List String
  fileWritten : Option String
  raised : Option PyError
  deriving DecidableEq, Repr

/-- `query_agol_data` (agol_survey_etl.py lines 33–62), as a function of the
outcome of `requests.get`: `.error e` models the GET raising a
`RequestException` with message `e`.  On that path the handler logs, after
which line 59 reads `layer_r`, a local variable never assigned, raising
`UnboundLocalError`.  Otherwise the function logs by status and then
unconditionally parses and dumps the body to the raw-data file. -/
def query_agol_data (token : String) (survey_params : SurveyParams)
    (date_ran : String) (fetchOutcome : Except String Response) : FetchResult :=
  match fetchOutcome with
  | .error e =>
    { logs := ["API request failed: " ++ e],
      fileWritten := none,
      raised := some (.unboundLocalError "layer_r") }
  | .ok layer_r =>
    let logs := if layer_r.status_code = 200 then
        ["Successfully queried " ++ survey_params.name ++ " data!"]
      else
        ["Bad request - check " ++ survey_params.name ++ " url and debug"]
    match layer_r.jsonBody with
    | none => { logs := logs, fileWritten := none, raised := some .jsonDecodeError }
    | some _ =>
      { logs := logs,
        fileWritten := some ("raw_data/" ++ survey_params.name ++ "_"
          ++ date_ran ++ ".json"),
        raised := none }

/-- `get_pg_connection` (agol_survey_etl.py lines 116–135), as a function of
whether `pg.connect` succeeds: on success the connection is returned, on
`OperationalError` the error is logged and the function falls through,
returning `None`.  The result is the connection (if any) and the log
lines. -/
def get_pg_connection (db_name : String) (connOk : Bool) :
    Option Unit × List String :=
  if connOk then
    (some (), ["Successfully connected to " ++ db_name ++ " db"])
  else
    (none, ["OperationalError"])

/-- `check_table_exists` (agol_survey_etl.py lines 138–163): `con.cursor()`
runs before the try block, so a `None` connection raises `AttributeError`;
otherwise the probe either logs success or its `OperationalError` is caught
and logged.  Returns the log lines and the exception escaping (if any). -/
def check_table_exists (con : Option Unit) (schema_name table : String)
    (probeOk : Bool) : List String × Option PyError :=
  match con with
  | none => ([], some .attributeErrorNoneCursor)
  | some _ =>
    if probeOk then (["Table exists, continue with loading."], none)
    else (["OperationalError"], none)

/-- The per-row loop of `load_data_into_pg_warehouse`: the upsert of each row is
built and executed in order; the first execute raising `OperationalError`
stops the loop (rows already executed stay committed, the connection is
autocommitting).  Returns the executed queries and whether the loop was
aborted. -/
def loadRows (etl_yaml : EtlYaml) (survey_params : SurveyParams)
    (execOk : List Part → Bool) : List (List Cell) → List (List Part) × Bool
  | [] => ([], false)
  | row :: rest =>
    let query := build_load_query row etl_yaml survey_params
    if execOk query then
      let (written, failed) := loadRows etl_yaml survey_params execOk rest
      (query :: written, failed)
    else
      ([], true)

/-- Observable result of the load stage: log lines, the upsert statements
executed against the warehouse, the exception escaping the function (if
any), and whether the connection was closed. -/
structure LoadResult where
  logs : List String
  writes : List (List Part)
  raised : Option PyError
  connClosed : Bool
  deriving DecidableEq, Repr

/-- `load_data_into_pg_warehouse` (agol_survey_etl.py lines 166–198), as a
function of the database outcomes: whether connecting succeeds, whether the
existence probe succeeds, and which upsert executions succeed.  The call to
`check_table_exists` precedes the try block, so an exception it raises
escapes the function with the connection left open and nothing written;
inside the try, an `OperationalError` aborts the remaining rows, closes the
connection and is logged. -/
def load_data_into_pg_warehouse (data : List (List Cell)) (etl_yaml : EtlYaml)
    (survey_params : SurveyParams) (connOk : Bool) (probeOk : Bool)
    (execOk : List Part → Bool) : LoadResult :=
  let (con, logs1) := get_pg_connection etl_yaml.db_name connOk
  let (logs2, err) := check_table_exists con etl_yaml.schema_name
    survey_params.table_name probeOk
  match err with
  | some e =>
    { logs := logs1 ++ logs2, writes := [], raised := some e, connClosed := false }
  | none =>
    let (written, failed) := loadRows etl_yaml survey_params execOk data
    if failed then
      { logs := logs1 ++ logs2 ++ ["OperationalError"],
        writes := written, raised := none, connClosed := true }
    else
      { logs := logs1 ++ logs2
          ++ ["Data was successfully loaded to " ++ etl_yaml.db_name ++ "."
            ++ etl_yaml.schema_name ++ "." ++ survey_params.table_name],
        writes := written, raised := none, connClosed := true }

/-- The survey configuration of the worked example in the spec: primary key `id`,
update-on-conflict column `value`, three declared columns. -/
def pEx : SurveyParams :=
  { name := "rainfall"
    url := "http://example.org/layer"
    json_schema := [("id", .tag "int64"), ("value", .tag "float64"),
      ("date_collected", .tag "int64")]
    db_schema := [("id", .tag "int64"), ("value", .tag "float64"),
      ("date_collected", .tag "int64")]
    table_name := "rain_t"
    prim_key := "id"
    update_col := "value" }

/-- A run configuration for the worked examples. -/
def eEx : EtlYaml := { db_name := "kwb", schema_name := "agol", token := "tok" }

/-- The example typed row from the spec `(id=1, value=3.14, date_collected=<date>)`. -/
def rowEx : List Cell := [.int 1, .float "3.14", .date 19675]

/-- The upsert built for the example row and configuration. -/
def qEx : List Part := build_load_query rowEx eEx pEx

/-- A row with only two values, fewer than the three declared columns of `pEx`. -/
def rowMis : List Cell := [.int 1, .null]

/-- A survey configuration whose only column is `date_collected`. -/
def pC4 : SurveyParams :=
  { name := "datesurvey"
    url := "http://example.org/dates"
    json_schema := [("date_collected", .tag "int64")]
    db_schema := [("date_collected", .tag "int64")]
    table_name := "dates_t"
    prim_key := "date_collected"
    update_col := "date_collected" }

/-- A survey configuration with a single tagged column, for observing the
mutation `build_schema` performs on its argument. -/
def pC6 : SurveyParams :=
  { name := "mutsurvey"
    url := "http://example.org/mut"
    json_schema := [("a", .tag "int64")]
    db_schema := [("a", .tag "int64")]
    table_name := "mut_t"
    prim_key := "a"
    update_col := "a" }

/-- Features for the transformer example: two features, the second one
missing the `value` attribute. -/
def fEx : List (List (String × Cell)) :=
  [[("id", .int 1), ("value", .float "3.14"), ("date_collected", .int 1700000000000)],
   [("id", .int 2), ("date_collected", .int 0)]]

/-- The dataframe the transformer produces for `fEx` under `pEx`. -/
def dfEx : DataFrame :=
  { cols := ["id", "value", "date_collected"]
    rows := [[.int 1, .float "3.14", .date 19675], [.int 2, .null, .date 0]] }

/-- The mapping `build_schema` applies to the value of each schema entry. -/
def coerceEntry (kv : String × SchemaVal) : String × SchemaVal :=
  (kv.1, coerceSchemaVal kv.2)

end AgolEtl

namespace AgolEtl

theorem queryIdents_append (a b : List Part) :
    queryIdents (a ++ b) = queryIdents a ++ queryIdents b := by
  simp [queryIdents]

theorem queryLits_append (a b : List Part) :
    queryLits (a ++ b) = queryLits a ++ queryLits b := by
  simp [queryLits]

theorem queryIdents_sqlJoin_ident (sep : String) :
    ∀ l : List String, queryIdents (sqlJoin (.raw sep) (l.map Part.ident)) = l
  | [] => rfl
  | [x] => rfl
  | x :: y :: rest => by
    have ih := queryIdents_sqlJoin_ident sep (y :: rest)
    simp only [List.map_cons] at ih ⊢
    simp [sqlJoin, queryIdents] at ih ⊢
    exact ih

theorem queryLits_sqlJoin_ident (sep : String) :
    ∀ l : List String, queryLits (sqlJoin (.raw sep) (l.map Part.ident)) = []
  | [] => rfl
  | [x] => rfl
  | x :: y :: rest => by
    have ih := queryLits_sqlJoin_ident sep (y :: rest)
    simp only [List.map_cons] at ih ⊢
    simp [sqlJoin, queryLits] at ih ⊢
    exact ih

theorem queryLits_sqlJoin_lit (sep : String) :
    ∀ l : List Cell, queryLits (sqlJoin (.raw sep) (l.map Part.lit)) = l
  | [] => rfl
  | [x] => rfl
  | x :: y :: rest => by
    have ih := queryLits_sqlJoin_lit sep (y :: rest)
    simp only [List.map_cons] at ih ⊢
    simp [sqlJoin, queryLits] at ih ⊢
    exact ih

theorem queryIdents_sqlJoin_lit (sep : String) :
    ∀ l : List Cell, queryIdents (sqlJoin (.raw sep) (l.map Part.lit)) = []
  | [] => rfl
  | [x] => rfl
  | x :: y :: rest => by
    have ih := queryIdents_sqlJoin_lit sep (y :: rest)
    simp only [List.map_cons] at ih ⊢
    simp [sqlJoin, queryIdents] at ih ⊢
    exact ih

theorem build_load_query_cols_eta (p : SurveyParams) :
    p.db_schema.map (fun col => Part.ident col.1)
      = (p.db_schema.map Prod.fst).map Part.ident :=
  (List.map_map Part.ident Prod.fst p.db_schema).symm

theorem build_load_query_lits (data : List Cell) (e : EtlYaml) (p : SurveyParams) :
    queryLits (build_load_query data e p) = data := by
  simp only [build_load_query, build_load_query_cols_eta, queryLits_append,
    queryLits_sqlJoin_ident, queryLits_sqlJoin_lit]
  simp [queryLits]

theorem build_load_query_idents (data : List Cell) (e : EtlYaml)
    (p : SurveyParams) :
    queryIdents (build_load_query data e p)
      = e.schema_name :: p.table_name ::
        (p.db_schema.map Prod.fst ++ [p.update_col, p.update_col]) := by
  simp only [build_load_query, build_load_query_cols_eta, queryIdents_append,
    queryIdents_sqlJoin_ident, queryIdents_sqlJoin_lit]
  simp [queryIdents]

theorem mem_sqlJoin (sep x : Part) :
    ∀ l : List Part, x ∈ sqlJoin sep l → x = sep ∨ x ∈ l
  | [] => by simp [sqlJoin]
  | [p] => fun h => Or.inr h
  | p :: q :: rest => by
    intro h
    simp only [sqlJoin, List.mem_cons] at h
    rcases h with h | h | h
    · exact Or.inr (by simp [h])
    · exact Or.inl h
    · rcases mem_sqlJoin sep x (q :: rest) h with h' | h'
      · exact Or.inl h'
      · exact Or.inr (List.mem_cons_of_mem _ h')

theorem build_load_query_eq (data : List Cell) (e : EtlYaml) (p : SurveyParams) :
    build_load_query data e p
      = ([Part.raw insertIntoChunk, .ident e.schema_name, .raw ".",
          .ident p.table_name, .raw " ("]
          ++ sqlJoin (.raw ", ") ((p.db_schema.map Prod.fst).map Part.ident)
          ++ [Part.raw valuesChunk]
          ++ sqlJoin (.raw " , ") (data.map Part.lit))
        ++ [Part.raw onConflictChunk, .raw p.prim_key, .raw doUpdateSetChunk,
          .ident p.update_col, .raw excludedChunk, .ident p.update_col,
          .raw "\n        "] := by
  simp [build_load_query, build_load_query_cols_eta]

theorem raw_not_mem_query_head (data : List Cell) (e : EtlYaml)
    (p : SurveyParams) (s : String) (h1 : s ≠ insertIntoChunk) (h2 : s ≠ ".")
    (h3 : s ≠ " (") (h4 : s ≠ valuesChunk) (h5 : s ≠ ", ") (h6 : s ≠ " , ") :
    Part.raw s ∉
      ([Part.raw insertIntoChunk, .ident e.schema_name, .raw ".",
        .ident p.table_name, .raw " ("]
        ++ sqlJoin (.raw ", ") ((p.db_schema.map Prod.fst).map Part.ident)
        ++ [Part.raw valuesChunk]
        ++ sqlJoin (.raw " , ") (data.map Part.lit)) := by
  intro hmem
  rcases List.mem_append.mp hmem with h | h
  · rcases List.mem_append.mp h with h | h
    · rcases List.mem_append.mp h with h | h
      · simp only [List.mem_cons, List.not_mem_nil, or_false] at h
        rcases h with h | h | h | h | h
        · exact h1 (Part.raw.inj h)
        · exact Part.noConfusion h
        · exact h2 (Part.raw.inj h)
        · exact Part.noConfusion h
        · exact h3 (Part.raw.inj h)
      · rcases mem_sqlJoin _ _ _ h with h' | h'
        · exact h5 (Part.raw.inj h')
        · rcases List.mem_map.mp h' with ⟨a, _, ha⟩
          exact Part.noConfusion ha
    · simp only [List.mem_cons, List.not_mem_nil, or_false] at h
      exact h4 (Part.raw.inj h)
  · rcases mem_sqlJoin _ _ _ h with h' | h'
    · exact h6 (Part.raw.inj h')
    · rcases List.mem_map.mp h' with ⟨a, _, ha⟩
      exact Part.noConfusion ha

theorem afterConflictMarker_append (a b : List Part)
    (h : Part.raw onConflictChunk ∉ a) :
    afterConflictMarker (a ++ b) = afterConflictMarker b := by
  induction a with
  | nil => rfl
  | cons p rest ih =>
    simp only [List.mem_cons, not_or] at h
    simp only [List.cons_append, afterConflictMarker]
    rw [if_neg (fun hp => h.1 hp.symm)]
    exact ih h.2

theorem partsAfter_append (marker : Part) (a b : List Part) (h : marker ∉ a) :
    partsAfter marker (a ++ b) = partsAfter marker b := by
  induction a with
  | nil => rfl
  | cons p rest ih =>
    simp only [List.mem_cons, not_or] at h
    simp only [List.cons_append, partsAfter]
    rw [if_neg (fun hp => h.1 hp.symm)]
    exact ih h.2

theorem build_load_query_conflict_target (data : List Cell) (e : EtlYaml)
    (p : SurveyParams) :
    afterConflictMarker (build_load_query data e p) = some (.raw p.prim_key) := by
  rw [build_load_query_eq, afterConflictMarker_append _ _
    (raw_not_mem_query_head data e p onConflictChunk (by decide) (by decide)
      (by decide) (by decide) (by decide) (by decide))]
  simp [afterConflictMarker]

theorem count_sqlJoin_eq_zero (x sep : Part) (l : List Part) (hs : x ≠ sep)
    (hl : x ∉ l) : List.count x (sqlJoin sep l) = 0 := by
  rw [List.count_eq_zero]
  intro hmem
  rcases mem_sqlJoin sep x l hmem with h | h
  · exact hs h
  · exact hl h

theorem count_onConflict_query (data : List Cell) (e : EtlYaml)
    (p : SurveyParams) (h : p.prim_key ≠ onConflictChunk) :
    List.count (Part.raw onConflictChunk) (build_load_query data e p) = 1 := by
  rw [build_load_query_eq, List.count_append]
  rw [List.count_eq_zero.mpr (raw_not_mem_query_head data e p onConflictChunk
    (by decide) (by decide) (by decide) (by decide) (by decide) (by decide))]
  simp [List.count_cons, Ne.symm h]
  all_goals decide

theorem count_doUpdateSet_query (data : List Cell) (e : EtlYaml)
    (p : SurveyParams) (h : p.prim_key ≠ doUpdateSetChunk) :
    List.count (Part.raw doUpdateSetChunk) (build_load_query data e p) = 1 := by
  rw [build_load_query_eq, List.count_append]
  rw [List.count_eq_zero.mpr (raw_not_mem_query_head data e p doUpdateSetChunk
    (by decide) (by decide) (by decide) (by decide) (by decide) (by decide))]
  simp [List.count_cons, Ne.symm h]
  all_goals decide

theorem query_set_targets (data : List Cell) (e : EtlYaml) (p : SurveyParams)
    (h : p.prim_key ≠ doUpdateSetChunk) :
    queryIdents (partsAfter (.raw doUpdateSetChunk) (build_load_query data e p))
      = [p.update_col, p.update_col] := by
  rw [build_load_query_eq, partsAfter_append _ _ _
    (raw_not_mem_query_head data e p doUpdateSetChunk (by decide) (by decide)
      (by decide) (by decide) (by decide) (by decide))]
  have h2 : ¬(Part.raw p.prim_key = Part.raw doUpdateSetChunk) :=
    fun hp => h (Part.raw.inj hp)
  simp only [partsAfter]
  rw [if_neg h2]
  rw [if_neg (show ¬(Part.raw onConflictChunk = Part.raw doUpdateSetChunk) by decide)]
  simp [queryIdents]

theorem assocSet_map_fst {α : Type} (k : String) (v : α) (d : List (String × α)) :
    (assocSet k v d).map Prod.fst = d.map Prod.fst := by
  induction d with
  | nil => rfl
  | cons kv rest ih =>
    simp only [assocSet, List.map_cons] at ih ⊢
    by_cases hk : kv.1 = k
    · simp [hk, ih]
    · simp [hk, ih]

theorem assocSet_of_not_mem {α : Type} (k : String) (v : α)
    (d : List (String × α)) (h : k ∉ d.map Prod.fst) : assocSet k v d = d := by
  induction d with
  | nil => rfl
  | cons kv rest ih =>
    simp only [List.map_cons, List.mem_cons, not_or] at h
    simp only [assocSet, List.map_cons] at ih ⊢
    rw [if_neg (fun hp => h.1 hp.symm), ih h.2]

theorem build_schema_loop_map_fst (items : List (String × SchemaVal)) :
    ∀ schema : List (String × SchemaVal),
      (build_schema_loop items schema).map Prod.fst = schema.map Prod.fst := by
  induction items with
  | nil => intro schema; rfl
  | cons kv rest ih =>
    intro schema
    simp only [build_schema_loop]
    rw [ih, assocSet_map_fst]

theorem build_schema_keys (p : SurveyParams) :
    (build_schema p).1.map Prod.fst = p.json_schema.map Prod.fst := by
  simp only [build_schema]
  exact build_schema_loop_map_fst _ _

theorem build_schema_loop_eq_map :
    ∀ (rest processed : List (String × SchemaVal)),
      ((processed ++ rest).map Prod.fst).Nodup →
      build_schema_loop rest (processed.map coerceEntry ++ rest)
        = (processed ++ rest).map coerceEntry
  | [], processed, _ => by simp [build_schema_loop]
  | (k, v) :: rs, processed, hnd => by
    have hmid : k ∉ (processed.map Prod.fst ++ rs.map Prod.fst) := by
      have hmap := hnd
      rw [List.map_append, List.map_cons] at hmap
      exact (List.nodup_cons.mp (List.nodup_middle.mp hmap)).1
    simp only [List.mem_append, not_or] at hmid
    have hset : assocSet k (coerceSchemaVal v)
        (processed.map coerceEntry ++ (k, v) :: rs)
        = (processed ++ [(k, v)]).map coerceEntry ++ rs := by
      have hkeys : k ∉ (processed.map coerceEntry).map Prod.fst := by
        have : (processed.map coerceEntry).map Prod.fst = processed.map Prod.fst := by
          simp [List.map_map, coerceEntry]
        rw [this]; exact hmid.1
      simp only [assocSet, List.map_append]
      rw [show (processed.map coerceEntry).map
            (fun kv => if kv.1 = k then (k, coerceSchemaVal v) else kv)
          = processed.map coerceEntry from assocSet_of_not_mem _ _ _ hkeys]
      simp only [List.map_cons, if_pos rfl]
      rw [show rs.map (fun kv => if kv.1 = k then (k, coerceSchemaVal v) else kv)
          = rs from assocSet_of_not_mem _ _ _ hmid.2]
      simp [coerceEntry]
    have hnd2 : (((processed ++ [(k, v)]) ++ rs).map Prod.fst).Nodup := by
      rw [List.append_assoc]
      exact hnd
    have ih := build_schema_loop_eq_map rs (processed ++ [(k, v)]) hnd2
    simp only [build_schema_loop]
    rw [hset, ih, List.append_assoc]
    rfl

theorem build_schema_fst_eq (p : SurveyParams)
    (h : (p.json_schema.map Prod.fst).Nodup) :
    (build_schema p).1 = p.json_schema.map coerceEntry := by
  have := build_schema_loop_eq_map p.json_schema [] (by simpa using h)
  simpa [build_schema] using this

theorem assocLookup_map_val {α β : Type} (k : String) (g : α → β)
    (l : List (String × α)) :
    assocLookup k (l.map fun kv => (kv.1, g kv.2)) = (assocLookup k l).map g := by
  induction l with
  | nil => rfl
  | cons kv rest ih =>
    simp only [List.map_cons, assocLookup]
    by_cases hk : kv.1 = k
    · simp [hk]
    · simp [hk, ih]

theorem assocLookup_of_mem_nodup {α : Type} (k : String) (v : α) :
    ∀ l : List (String × α), (l.map Prod.fst).Nodup → (k, v) ∈ l →
      assocLookup k l = some v
  | [], _, hmem => absurd hmem (List.not_mem_nil _)
  | (k', v') :: rest, hnd, hmem => by
    simp only [List.map_cons, List.nodup_cons] at hnd
    simp only [assocLookup]
    rcases List.mem_cons.mp hmem with h | h
    · injection h with h1 h2
      subst h1; subst h2
      simp
    · have hk : k' ≠ k := by
        intro he
        exact hnd.1 (he ▸ (List.mem_map.mpr ⟨(k, v), h, rfl⟩))
      rw [if_neg hk]
      exact assocLookup_of_mem_nodup k v rest hnd.2 h

theorem mapOpt_length {α β : Type} (f : α → Option β) :
    ∀ (l : List α) (l' : List β), mapOpt f l = some l' → l'.length = l.length
  | [], l', h => by
    simp only [mapOpt] at h
    injection h with h
    subst h; rfl
  | a :: rest, l', h => by
    simp only [mapOpt] at h
    cases hfa : f a with
    | none => rw [hfa] at h; exact absurd h (by simp)
    | some b =>
      rw [hfa] at h
      cases hrest : mapOpt f rest with
      | none => rw [hrest] at h; exact absurd h (by simp)
      | some bs =>
        rw [hrest] at h
        injection h with h
        subst h
        simp [mapOpt_length f rest bs hrest]

theorem transform_agol_data_shape (p : SurveyParams)
    (features : List (List (String × Cell))) (df : DataFrame)
    (h : transform_agol_data p features = some df) :
    df.cols = p.json_schema.map Prod.fst ∧ df.rows.length = features.length := by
  simp only [transform_agol_data] at h
  split at h
  · simp at h
  next rows hm1 =>
    split at h
    · simp at h
    next i hm2 =>
      split at h
      · simp at h
      next rows2 hm3 =>
        split at h
        · simp at h
        next rows3 hm4 =>
          injection h with h
          subst h
          refine ⟨build_schema_keys p, ?_⟩
          rw [mapOpt_length _ _ _ hm4, mapOpt_length _ _ _ hm3,
            mapOpt_length _ _ _ hm1]

/-- C1: for every row value array and every survey configuration,
`build_load_query` pairs the i-th `db_schema` key with the i-th row value
positionally and performs no validation: it returns a statement for every
input, the literal list being exactly the row and the identifier list being
exactly schema name, table name, the `db_schema` keys in order and the update
column twice — in particular for a 2-value row against a 3-column schema. -/
theorem c1_positional_pairing_no_validation :
    (∀ (data : List Cell) (e : EtlYaml) (p : SurveyParams),
      queryLits (build_load_query data e p) = data
      ∧ queryIdents (build_load_query data e p)
          = e.schema_name :: p.table_name ::
            (p.db_schema.map Prod.fst ++ [p.update_col, p.update_col]))
    ∧ (pEx.db_schema.map Prod.fst).length = 3
    ∧ rowMis.length = 2
    ∧ queryLits (build_load_query rowMis eEx pEx) = rowMis := by
  refine ⟨fun data e p =>
    ⟨build_load_query_lits data e p, build_load_query_idents data e p⟩,
    by decide, by decide, build_load_query_lits rowMis eEx pEx⟩

/-- C2: for every typed row and survey configuration (whose primary-key and
update-column strings are column names, not the chunks of the template itself), the
statement is an INSERT listing the declared columns and the values of the row,
with exactly one ON CONFLICT clause whose target is the primary-key column
and exactly one SET target assigning the update column to its Excluded
value; and on the concrete example from the spec the rendered SQL contains the
expected clauses exactly once. -/
theorem c2_upsert_statement_structure :
    (∀ (data : List Cell) (e : EtlYaml) (p : SurveyParams),
      p.prim_key ≠ onConflictChunk → p.prim_key ≠ doUpdateSetChunk →
      List.count (Part.raw onConflictChunk) (build_load_query data e p) = 1
      ∧ afterConflictMarker (build_load_query data e p) = some (.raw p.prim_key)
      ∧ List.count (Part.raw doUpdateSetChunk) (build_load_query data e p) = 1
      ∧ queryIdents (partsAfter (.raw doUpdateSetChunk) (build_load_query data e p))
          = [p.update_col, p.update_col]
      ∧ queryLits (build_load_query data e p) = data)
    ∧ renderQuery qEx
        = "\n        INSERT INTO \"agol\".\"rain_t\" (\"id\", \"value\", \"date_collected\") VALUES (1 , 3.14 , \x272023-11-14\x27::date)\n        ON CONFLICT (id) DO UPDATE SET \"value\" = Excluded.\"value\"\n        "
    ∧ countOccurS "ON CONFLICT" (renderQuery qEx) = 1
    ∧ countOccurS "ON CONFLICT (id)" (renderQuery qEx) = 1
    ∧ countOccurS "DO UPDATE SET" (renderQuery qEx) = 1
    ∧ countOccurS "\"value\" = Excluded.\"value\"" (renderQuery qEx) = 1 := by
  refine ⟨fun data e p h1 h2 =>
    ⟨count_onConflict_query data e p h1,
      build_load_query_conflict_target data e p,
      count_doUpdateSet_query data e p h2,
      query_set_targets data e p h2,
      build_load_query_lits data e p⟩,
    by decide, by decide, by decide, by decide, by decide⟩

/-- Witness for C2: the structural statement applied to the example
row and configuration. -/
theorem c2_witness :
    List.count (Part.raw onConflictChunk) qEx = 1
    ∧ afterConflictMarker qEx = some (.raw "id")
    ∧ List.count (Part.raw doUpdateSetChunk) qEx = 1
    ∧ queryIdents (partsAfter (.raw doUpdateSetChunk) qEx) = ["value", "value"]
    ∧ queryLits qEx = rowEx :=
  c2_upsert_statement_structure.1 rowEx eEx pEx (by decide) (by decide)

/-- C3: whenever `transform_agol_data` produces a table from a raw input with
N features, the table has exactly N rows and column list equal to the keys of
the declared schema of the survey. -/
theorem c3_transform_rows_and_columns :
    ∀ (p : SurveyParams) (features : List (List (String × Cell))) (df : DataFrame),
      transform_agol_data p features = some df →
      df.cols = p.json_schema.map Prod.fst ∧ df.rows.length = features.length :=
  fun p features df h => transform_agol_data_shape p features df h

/-- Witness for C3: a two-feature input under the example schema produces a
two-row table with the declared columns. -/
theorem c3_witness :
    transform_agol_data pEx fEx = some dfEx
    ∧ (dfEx.cols = pEx.json_schema.map Prod.fst
      ∧ dfEx.rows.length = fEx.length) :=
  ⟨by decide, c3_transform_rows_and_columns pEx fEx dfEx (by decide)⟩

/-- C4: the `date_collected` column is converted by interpreting its integer
as an epoch-millisecond timestamp and flooring to the UTC day boundary, for
every integer value; in particular 1700000000000 lands on day 19675, whose
calendar date is 2023-11-14. -/
theorem c4_date_collected_epoch_truncation :
    (∀ ms : Int,
      transform_agol_data pC4 [[("date_collected", Cell.int ms)]]
        = some ⟨["date_collected"], [[Cell.date (Int.fdiv ms 86400000)]]⟩)
    ∧ Int.fdiv 1700000000000 86400000 = 19675
    ∧ civilFromDays 19675 = (2023, 11, 14) :=
  ⟨fun ms => rfl, by decide, by decide⟩

/-- C5: `build_schema` applies to every declared entry exactly the mapping
"string" to the string type, "int64" to the 64-bit integer type, "float64"
to the 64-bit float type, any other tag to the string type. -/
theorem c5_schema_builder_tag_mapping :
    (∀ p : SurveyParams, (p.json_schema.map Prod.fst).Nodup →
      ∀ (k : String) (v : SchemaVal), (k, v) ∈ p.json_schema →
        assocLookup k (build_schema p).1 = some (coerceSchemaVal v))
    ∧ coerceSchemaVal (.tag "string") = .ptype .string
    ∧ coerceSchemaVal (.tag "int64") = .ptype .int64
    ∧ coerceSchemaVal (.tag "float64") = .ptype .float64
    ∧ (∀ t : String, t ≠ "string" → t ≠ "int64" → t ≠ "float64" →
        coerceSchemaVal (.tag t) = .ptype .string) := by
  refine ⟨?_, by decide, by decide, by decide, ?_⟩
  · intro p h k v hm
    rw [build_schema_fst_eq p h,
      show p.json_schema.map coerceEntry
          = p.json_schema.map (fun kv => (kv.1, coerceSchemaVal kv.2)) from rfl,
      assocLookup_map_val, assocLookup_of_mem_nodup k v p.json_schema h hm]
    rfl
  · intro t h1 h2 h3
    simp [coerceSchemaVal, h1, h2, h3]

/-- Witness for C5: the mapping evaluated on the example schema and on an
unrecognized tag. -/
theorem c5_witness :
    assocLookup "value" (build_schema pEx).1 = some (.ptype .float64)
    ∧ coerceSchemaVal (.tag "bogus") = .ptype .string := by
  constructor
  · have h := c5_schema_builder_tag_mapping.1 pEx (by decide) "value"
      (.tag "float64") (by decide)
    simpa using h
  · exact c5_schema_builder_tag_mapping.2.2.2.2 "bogus" (by decide) (by decide)
      (by decide)

/-- Counterexample to C6: `build_schema` is not side-effect free — on a
concrete input the `survey_params` dictionary after the call differs from
the one passed in, its `json_schema` values having been overwritten. -/
theorem c6_counterexample : (build_schema pC6).2 ≠ pC6 := by decide

/-- C6 (amended): `build_schema` performs no I/O, but it mutates its
argument: after the call `survey_params.json_schema` holds the coerced
types in place of the tags, while every other field is unchanged. -/
theorem c6_build_schema_mutates_json_schema :
    ∀ p : SurveyParams, (p.json_schema.map Prod.fst).Nodup →
      (build_schema p).2.json_schema = p.json_schema.map coerceEntry
      ∧ (build_schema p).2.name = p.name
      ∧ (build_schema p).2.url = p.url
      ∧ (build_schema p).2.db_schema = p.db_schema
      ∧ (build_schema p).2.table_name = p.table_name
      ∧ (build_schema p).2.prim_key = p.prim_key
      ∧ (build_schema p).2.update_col = p.update_col := by
  intro p h
  refine ⟨?_, rfl, rfl, rfl, rfl, rfl, rfl⟩
  have hj : (build_schema p).2.json_schema = (build_schema p).1 := rfl
  rw [hj]
  exact build_schema_fst_eq p h

/-- Witness for C6 (amended): the mutation observed on the concrete input. -/
theorem c6_witness :
    (build_schema pC6).2.json_schema = pC6.json_schema.map coerceEntry
    ∧ (build_schema pC6).2.table_name = pC6.table_name := by
  have h := c6_build_schema_mutates_json_schema pC6 (by decide)
  exact ⟨h.1, h.2.2.2.2.1⟩

/-- Counterexample to C7: on a non-200 response (status 404, JSON body) the
fetch stage does write the raw-output file for the survey, contrary to the
claim that no file is written. -/
theorem c7_counterexample :
    (query_agol_data "token0" pEx "2025-01-01"
        (.ok { status_code := 404, jsonBody := some "body" })).fileWritten
      = some "raw_data/rainfall_2025-01-01.json" := by decide

/-- C7 (amended): on every non-200 response whose body parses as JSON, the
fetch stage logs the failure and raises nothing, but it writes the raw-output
file for that survey anyway. -/
theorem c7_non200_logs_but_writes_file :
    ∀ (tok : String) (p : SurveyParams) (date : String) (r : Response),
      r.status_code ≠ 200 → r.jsonBody ≠ none →
      (query_agol_data tok p date (.ok r)).raised = none
      ∧ (query_agol_data tok p date (.ok r)).logs
          = ["Bad request - check " ++ p.name ++ " url and debug"]
      ∧ (query_agol_data tok p date (.ok r)).fileWritten
          = some ("raw_data/" ++ p.name ++ "_" ++ date ++ ".json") := by
  intro tok p date r h200 hjson
  cases hb : r.jsonBody with
  | none => exact absurd hb hjson
  | some b => simp [query_agol_data, hb, h200]

/-- Witness for C7 (amended): the concrete 404 response. -/
theorem c7_witness :
    (query_agol_data "token0" pEx "2025-01-01"
        (.ok { status_code := 404, jsonBody := some "body" })).raised = none
    ∧ (query_agol_data "token0" pEx "2025-01-01"
        (.ok { status_code := 404, jsonBody := some "body" })).logs
      = ["Bad request - check rainfall url and debug"]
    ∧ (query_agol_data "token0" pEx "2025-01-01"
        (.ok { status_code := 404, jsonBody := some "body" })).fileWritten
      = some "raw_data/rainfall_2025-01-01.json" := by
  have h := c7_non200_logs_but_writes_file "token0" pEx "2025-01-01"
    { status_code := 404, jsonBody := some "body" } (by decide) (by decide)
  simpa using h

/-- C8: when the GET raises a request exception, the handler logs the error
and no file is written, but the function does not return normally: line 59
then reads the never-assigned local `layer_r`, so an `UnboundLocalError`
propagates to the caller — the code, evaluated at the failing input. -/
theorem c8_request_exception_unbound_local :
    ∀ (tok : String) (p : SurveyParams) (date msg : String),
      query_agol_data tok p date (.error msg)
        = { logs := ["API request failed: " ++ msg],
            fileWritten := none,
            raised := some (.unboundLocalError "layer_r") } :=
  fun _ _ _ _ => rfl

/-- Counterexample to C9: on a database connection failure the loader does
let an exception escape — `check_table_exists` calls `.cursor()` on the
`None` returned by `get_pg_connection`, and the resulting `AttributeError`
is raised out of `load_data_into_pg_warehouse`. -/
theorem c9_counterexample :
    (load_data_into_pg_warehouse [[Cell.int 1]] eEx pEx false true
        (fun _ => true)).raised = some .attributeErrorNoneCursor := by decide

/-- C9 (amended): on every database connection failure the loader logs the
failure and performs no writes, but an `AttributeError` escapes the loader
boundary (and the never-opened connection is not closed). -/
theorem c9_conn_failure_raises_attribute_error :
    ∀ (data : List (List Cell)) (e : EtlYaml) (p : SurveyParams)
      (probeOk : Bool) (execOk : List Part → Bool),
      load_data_into_pg_warehouse data e p false probeOk execOk
        = { logs := ["OperationalError"], writes := [],
            raised := some .attributeErrorNoneCursor, connClosed := false } :=
  fun _ _ _ _ _ => rfl

/-- C10: in every statement built by `build_load_query`, schema name, table
name, columns and update column are identifiers (rendered with quoting),
while the configured primary-key string is embedded as a raw SQL chunk whose
rendered text is exactly the configured string, unquoted and unescaped. -/
theorem c10_prim_key_raw_idents_quoted :
    (∀ (data : List Cell) (e : EtlYaml) (p : SurveyParams),
      afterConflictMarker (build_load_query data e p) = some (.raw p.prim_key)
      ∧ renderPart (.raw p.prim_key) = p.prim_key
      ∧ queryIdents (build_load_query data e p)
          = e.schema_name :: p.table_name ::
            (p.db_schema.map Prod.fst ++ [p.update_col, p.update_col])
      ∧ (∀ s : String, renderPart (.ident s) = quoteIdent s))
    ∧ renderPart (.raw pEx.prim_key) = "id"
    ∧ renderPart (.ident pEx.prim_key) = "\"id\""
    ∧ countOccurS "ON CONFLICT (id) " (renderQuery qEx) = 1 := by
  refine ⟨fun data e p =>
    ⟨build_load_query_conflict_target data e p, rfl,
      build_load_query_idents data e p, fun s => rfl⟩,
    by decide, by decide, by decide⟩

end AgolEtl
